import Mathlib

/-!
Shallow embedding of `src/get_topography.py` (repository ANDorXOR).

The Python module has two functions:
  * `haversine_distance(lat1_rad, lon1_rad, lat2_rad, lon2_rad, earth_radius_m=6371000)`
  * `analyze_and_export_metrics(file_path, lon_col, lat_col, z_col, id_col,
      output_filename)` with column-name defaults x, y, ZCOORD, ID

Floating-point numbers are modelled by `ℝ`.  Pandas aggregates (`max`, `median`,
`mean`) return NaN on an empty series; the code then maps NaN to `0.0` via
`pd.isna` checks.  This is modelled by aggregates of type `Option ℝ` (none on
the empty list) followed by `Option.getD 0`.  The Excel load and its failure
modes (`FileNotFoundError`, any other exception) are modelled by the
`Source` type; the optional report write and its caught failure are modelled
by the `writable` flag and the returned `WriteResult` tag.
-/

/-- `np.arctan2 y x`: the angle of the point `(x, y)`, in `(-π, π]`,
with `arctan2 0 0 = 0`. -/
noncomputable def arctan2 (y x : ℝ) : ℝ :=
  if 0 < x then Real.arctan (y / x)
  else if x < 0 ∧ 0 ≤ y then Real.arctan (y / x) + Real.pi
  else if x < 0 ∧ y < 0 then Real.arctan (y / x) - Real.pi
  else if x = 0 ∧ 0 < y then Real.pi / 2
  else if x = 0 ∧ y < 0 then -(Real.pi / 2)
  else 0

/-- The haversine intermediate `a` of `haversine_distance` (line 14 of
`get_topography.py`):
`a = sin(delta_lat/2)**2 + cos(lat1)*cos(lat2)*sin(delta_lon/2)**2`. -/
noncomputable def haversine_a (lat1_rad lon1_rad lat2_rad lon2_rad : ℝ) : ℝ :=
  Real.sin ((lat2_rad - lat1_rad) / 2) ^ 2 +
    Real.cos lat1_rad * Real.cos lat2_rad * Real.sin ((lon2_rad - lon1_rad) / 2) ^ 2

/-- The haversine intermediate `c` (line 15):
`c = 2 * np.arctan2(np.sqrt(a), np.sqrt(1 - a))`. -/
noncomputable def haversine_c (lat1_rad lon1_rad lat2_rad lon2_rad : ℝ) : ℝ :=
  2 * arctan2 (Real.sqrt (haversine_a lat1_rad lon1_rad lat2_rad lon2_rad))
      (Real.sqrt (1 - haversine_a lat1_rad lon1_rad lat2_rad lon2_rad))

/-- `haversine_distance` (lines 6-18): `distance = earth_radius_m * c`.
The Python default argument `earth_radius_m=6371000` is passed explicitly
at the single call site of the pipeline. -/
noncomputable def haversine_distance (lat1_rad lon1_rad lat2_rad lon2_rad earth_radius_m : ℝ) : ℝ :=
  earth_radius_m * haversine_c lat1_rad lon1_rad lat2_rad lon2_rad

/-- The haversine formula exactly as written in the specification document
(section 4.1), in one expression, radius fixed at 6,371,000 m. -/
noncomputable def haversineSpec (lat1 lon1 lat2 lon2 : ℝ) : ℝ :=
  6371000 *
    (2 * arctan2
      (Real.sqrt (Real.sin ((lat2 - lat1) / 2) ^ 2 +
        Real.cos lat1 * Real.cos lat2 * Real.sin ((lon2 - lon1) / 2) ^ 2))
      (Real.sqrt (1 - (Real.sin ((lat2 - lat1) / 2) ^ 2 +
        Real.cos lat1 * Real.cos lat2 * Real.sin ((lon2 - lon1) / 2) ^ 2))))

/-- One row of the loaded table, holding the four required columns
(defaults `ID`, `x` = longitude, `y` = latitude, `ZCOORD` = elevation). -/
structure Row where
  ID : Int
  x : ℝ
  y : ℝ
  ZCOORD : ℝ

/-- One derived step (row `i ≥ 1` of the shifted dataframe):
`d_horizontal_m` and `dZ_m` of lines 70-74. -/
structure Step where
  d_horizontal_m : ℝ
  dZ_m : ℝ

/-- The parsed table: its column names, and its rows (the four columns used). -/
structure DataFrame where
  columns : List String
  rows : List Row

/-- Outcome of `pd.read_excel(file_path)` (lines 39-46): the file may be
missing (`FileNotFoundError`), unreadable (any other exception), or parse
into a table. -/
inductive Source where
  | fileNotFound : Source
  | loadError : Source
  | table : DataFrame → Source

/-- Outcome of the optional report write (lines 145-154): no
`output_filename` given, write succeeded, or write failed and the caught
exception was logged as a warning. -/
inductive WriteResult where
  | skipped : WriteResult
  | written : WriteResult
  | warnedFailure : WriteResult
deriving DecidableEq

/-- The results dict of lines 113-125. -/
structure TerrainMetrics where
  File_Path : String
  Max_Slope_Ratio_m_m : ℝ
  Median_Absolute_Slope_m_m : ℝ
  Mean_Absolute_Slope_m_m : ℝ
  Max_Grade_Percent : ℝ
  Median_Grade_Percent : ℝ
  Mean_Grade_Percent : ℝ
  Max_Grade_Angle_Degrees : ℝ
  Max_Vertical_Step_m : ℝ
  Median_Vertical_Step_m : ℝ
  Mean_Vertical_Step_m : ℝ

/-- `np.radians`: degrees to radians (lines 64-67). -/
noncomputable def radians (deg : ℝ) : ℝ := deg * (Real.pi / 180)

/-- The sort key of `df.sort_values(by=id_col)` (line 57). -/
abbrev rowLE : Row → Row → Prop := fun a b => a.ID ≤ b.ID

instance : DecidableRel rowLE := fun a b => inferInstanceAs (Decidable (a.ID ≤ b.ID))

instance : IsTotal Row rowLE := ⟨fun a b => Int.le_total a.ID b.ID⟩

instance : IsTrans Row rowLE := ⟨fun _ _ _ h h' => le_trans h h'⟩

/-- Strict version of `rowLE`, used to compare sorted tables with distinct ids. -/
abbrev rowLT : Row → Row → Prop := fun a b => a.ID < b.ID

instance : IsAntisymm Row rowLT := ⟨fun _ _ h h' => absurd (lt_trans h h') (lt_irrefl _)⟩

/-- `df = df.sort_values(by=id_col).reset_index(drop=True)` (line 57),
modelled as a comparison sort on the id column. -/
noncomputable def sortRows (rows : List Row) : List Row :=
  List.insertionSort rowLE rows

/-- The step records produced by the shift/diff block (lines 60-74): row `i`
(for `i ≥ 1`) pairs with row `i-1`; the first row has no predecessor and
yields no step.  `d_horizontal_m` is the haversine distance of the
radian-converted (prev, current) coordinates, `dZ_m` the elevation diff. -/
noncomputable def mkSteps : List Row → List Step
  | p :: q :: rest =>
      { d_horizontal_m :=
          haversine_distance (radians p.y) (radians p.x) (radians q.y) (radians q.x) 6371000,
        dZ_m := q.ZCOORD - p.ZCOORD } :: mkSteps (q :: rest)
  | _ => []

/-- `MIN_HORIZONTAL_STEP_M = 0.01` (line 77). -/
noncomputable def MIN_HORIZONTAL_STEP_M : ℝ := 0.01

/-- The row filter of line 78: keep the rows whose `d_horizontal_m` is at
least `MIN_HORIZONTAL_STEP_M`, applied to the steps of the sorted table.
The NaN distance of the first row fails the `>=` comparison in pandas,
which the step list already reflects by containing no step for the first
row. -/
noncomputable def cleanedSteps (rows : List Row) : List Step :=
  (mkSteps (sortRows rows)).filter
    (fun s => decide (MIN_HORIZONTAL_STEP_M ≤ s.d_horizontal_m))

/-- Pandas `.max()` over a series: NaN (here `none`) on an empty series. -/
noncomputable def seriesMax : List ℝ → Option ℝ
  | [] => none
  | x :: xs => some (xs.foldl max x)

/-- Pandas `.mean()` over a series: NaN (here `none`) on an empty series. -/
noncomputable def seriesMean : List ℝ → Option ℝ
  | [] => none
  | x :: xs => some ((x :: xs).sum / (x :: xs).length)

/-- Pandas `.median()` over a series: NaN (here `none`) on an empty series,
middle element of the sorted values for odd length, average of the two
middle elements for even length. -/
noncomputable def seriesMedian : List ℝ → Option ℝ
  | [] => none
  | x :: xs =>
      let s := List.insertionSort (· ≤ ·) (x :: xs)
      let n := (x :: xs).length
      if n % 2 = 1 then some (s.getD (n / 2) 0)
      else some ((s.getD (n / 2 - 1) 0 + s.getD (n / 2) 0) / 2)

/-- `np.degrees` (line 109). -/
noncomputable def degrees (x : ℝ) : ℝ := x * (180 / Real.pi)

/-- Lines 80-125 applied to the cleaned step list: per-step absolute slope
`(dZ_m / d_horizontal_m).abs()`, per-step `dZ_m.abs()`, the six aggregates
with their `pd.isna` → `0.0` fallbacks, and the derived grade fields. -/
noncomputable def metricsFromSteps (file_path : String) (df_cleaned : List Step) :
    TerrainMetrics :=
  let slopes := df_cleaned.map (fun s => |s.dZ_m / s.d_horizontal_m|)
  let vsteps := df_cleaned.map (fun s => |s.dZ_m|)
  let max_slope_value := (seriesMax slopes).getD 0
  let median_abs_slope := (seriesMedian slopes).getD 0
  let mean_abs_slope := (seriesMean slopes).getD 0
  let max_vertical_step := (seriesMax vsteps).getD 0
  let median_vertical_step := (seriesMedian vsteps).getD 0
  let mean_vertical_step := (seriesMean vsteps).getD 0
  { File_Path := file_path
    Max_Slope_Ratio_m_m := max_slope_value
    Median_Absolute_Slope_m_m := median_abs_slope
    Mean_Absolute_Slope_m_m := mean_abs_slope
    Max_Grade_Percent := max_slope_value * 100
    Median_Grade_Percent := median_abs_slope * 100
    Mean_Grade_Percent := mean_abs_slope * 100
    Max_Grade_Angle_Degrees := degrees (Real.arctan max_slope_value)
    Max_Vertical_Step_m := max_vertical_step
    Median_Vertical_Step_m := median_vertical_step
    Mean_Vertical_Step_m := mean_vertical_step }

/-- The whole computation of lines 56-125 on a loaded row list. -/
noncomputable def computeMetrics (file_path : String) (rows : List Row) : TerrainMetrics :=
  metricsFromSteps file_path (cleanedSteps rows)

/-- `analyze_and_export_metrics` (lines 20-156).  The load failures of
lines 39-46 and the empty-table / missing-column check of lines 48-52
return `None`; otherwise the metrics are computed and returned, with the
optional report write of lines 145-154 catching (not raising) a write
failure.  The second component records what the write step did. -/
noncomputable def analyze_and_export_metrics
    (file_path lon_col lat_col z_col id_col : String) (src : Source)
    (output_filename : Option String) (writable : Bool) :
    Option TerrainMetrics × WriteResult :=
  match src with
  | .fileNotFound => (none, .skipped)
  | .loadError => (none, .skipped)
  | .table df =>
    if df.rows.isEmpty = true ∨
        ¬ (lon_col ∈ df.columns ∧ lat_col ∈ df.columns ∧
           z_col ∈ df.columns ∧ id_col ∈ df.columns) then
      (none, .skipped)
    else
      let results := computeMetrics file_path df.rows
      match output_filename with
      | none => (some results, .skipped)
      | some _ =>
        if writable then (some results, .written) else (some results, .warnedFailure)

/-! ### Helper lemmas about the haversine embedding -/

lemma arctan_nonneg_of_nonneg {t : ℝ} (h : 0 ≤ t) : 0 ≤ Real.arctan t := by
  have hm := Real.arctan_strictMono.monotone h
  rwa [Real.arctan_zero] at hm

lemma arctan2_bounds (y x : ℝ) (hy : 0 ≤ y) (hx : 0 ≤ x) :
    0 ≤ arctan2 y x ∧ arctan2 y x ≤ Real.pi / 2 := by
  have hpi := Real.pi_pos
  unfold arctan2
  split_ifs with h1 h2 h3 h4 h5
  · exact ⟨arctan_nonneg_of_nonneg (div_nonneg hy h1.le),
      (Real.arctan_lt_pi_div_two _).le⟩
  · exact absurd h2.1 (not_lt.mpr hx)
  · exact absurd h3.1 (not_lt.mpr hx)
  · exact ⟨by linarith, le_refl _⟩
  · exact absurd h5.2 (not_lt.mpr hy)
  · exact ⟨le_refl _, by linarith⟩

lemma arctan2_zero_one : arctan2 0 1 = 0 := by
  unfold arctan2
  rw [if_pos one_pos, zero_div, Real.arctan_zero]

lemma haversine_a_self (lat lon : ℝ) : haversine_a lat lon lat lon = 0 := by
  unfold haversine_a
  simp

lemma haversine_c_self (lat lon : ℝ) : haversine_c lat lon lat lon = 0 := by
  unfold haversine_c
  rw [haversine_a_self]
  norm_num [arctan2_zero_one]

lemma haversine_self (lat lon R : ℝ) : haversine_distance lat lon lat lon R = 0 := by
  unfold haversine_distance
  rw [haversine_c_self, mul_zero]

lemma sin_half_sq_comm (x y : ℝ) :
    Real.sin ((x - y) / 2) ^ 2 = Real.sin ((y - x) / 2) ^ 2 := by
  rw [← neg_sub y x, neg_div, Real.sin_neg, neg_sq]

lemma haversine_a_comm (lat1 lon1 lat2 lon2 : ℝ) :
    haversine_a lat1 lon1 lat2 lon2 = haversine_a lat2 lon2 lat1 lon1 := by
  unfold haversine_a
  rw [sin_half_sq_comm lat2 lat1, sin_half_sq_comm lon2 lon1, mul_comm (Real.cos lat1)]

lemma haversine_a_nonneg (lat1 lon1 lat2 lon2 : ℝ)
    (h1l : -(Real.pi / 2) ≤ lat1) (h1u : lat1 ≤ Real.pi / 2)
    (h2l : -(Real.pi / 2) ≤ lat2) (h2u : lat2 ≤ Real.pi / 2) :
    0 ≤ haversine_a lat1 lon1 lat2 lon2 := by
  have c1 : 0 ≤ Real.cos lat1 := Real.cos_nonneg_of_mem_Icc ⟨h1l, h1u⟩
  have c2 : 0 ≤ Real.cos lat2 := Real.cos_nonneg_of_mem_Icc ⟨h2l, h2u⟩
  unfold haversine_a
  have := sq_nonneg (Real.sin ((lat2 - lat1) / 2))
  have := mul_nonneg (mul_nonneg c1 c2) (sq_nonneg (Real.sin ((lon2 - lon1) / 2)))
  linarith

lemma haversine_a_le_one (lat1 lon1 lat2 lon2 : ℝ)
    (h1l : -(Real.pi / 2) ≤ lat1) (h1u : lat1 ≤ Real.pi / 2)
    (h2l : -(Real.pi / 2) ≤ lat2) (h2u : lat2 ≤ Real.pi / 2) :
    haversine_a lat1 lon1 lat2 lon2 ≤ 1 := by
  have c1 : 0 ≤ Real.cos lat1 := Real.cos_nonneg_of_mem_Icc ⟨h1l, h1u⟩
  have c2 : 0 ≤ Real.cos lat2 := Real.cos_nonneg_of_mem_Icc ⟨h2l, h2u⟩
  have hs : Real.sin ((lon2 - lon1) / 2) ^ 2 ≤ 1 := Real.sin_sq_le_one _
  have hlat : Real.sin ((lat2 - lat1) / 2) ^ 2 =
      1 / 2 - Real.cos (lat2 - lat1) / 2 := by
    have h := Real.sin_sq_eq_half_sub ((lat2 - lat1) / 2)
    have h2 : 2 * ((lat2 - lat1) / 2) = lat2 - lat1 := by ring
    rw [h2] at h
    exact h
  have hcc : Real.cos lat1 * Real.cos lat2 =
      (Real.cos (lat1 + lat2) + Real.cos (lat2 - lat1)) / 2 := by
    have hneg : Real.cos (lat2 - lat1) = Real.cos (lat1 - lat2) := by
      rw [← Real.cos_neg (lat1 - lat2), neg_sub]
    rw [hneg, Real.cos_add, Real.cos_sub]
    ring
  have hsum : Real.cos (lat1 + lat2) ≤ 1 := Real.cos_le_one _
  have hmul : Real.cos lat1 * Real.cos lat2 * Real.sin ((lon2 - lon1) / 2) ^ 2 ≤
      Real.cos lat1 * Real.cos lat2 :=
    mul_le_of_le_one_right (mul_nonneg c1 c2) hs
  unfold haversine_a
  linarith

/-! ### Claims C3, C6, C9: the haversine function -/

/-- Claim C3: `haversine_distance` computes exactly `R * c` with
`R = 6371000`, `a = sin((lat2-lat1)/2)^2 + cos lat1 * cos lat2 *
sin((lon2-lon1)/2)^2` and `c = 2 * atan2 (sqrt a) (sqrt (1-a))` — the
formula of the specification — and for two identical points `a = 0`,
`c = 0` and the returned distance is `0`. -/
theorem haversine_matches_spec_and_zero_on_self (lat1 lon1 lat2 lon2 : ℝ) :
    haversine_distance lat1 lon1 lat2 lon2 6371000 = haversineSpec lat1 lon1 lat2 lon2 ∧
    haversine_a lat1 lon1 lat1 lon1 = 0 ∧
    haversine_c lat1 lon1 lat1 lon1 = 0 ∧
    haversine_distance lat1 lon1 lat1 lon1 6371000 = 0 :=
  ⟨rfl, haversine_a_self lat1 lon1, haversine_c_self lat1 lon1,
    haversine_self lat1 lon1 6371000⟩

/-- Claim C9: `haversine_distance` is symmetric in its two points, for any
sphere radius (in particular for the default 6,371,000 m). -/
theorem haversine_symm (lat1 lon1 lat2 lon2 R : ℝ) :
    haversine_distance lat1 lon1 lat2 lon2 R = haversine_distance lat2 lon2 lat1 lon1 R := by
  unfold haversine_distance haversine_c
  rw [haversine_a_comm]

/-- Claim C6: for latitudes in `[-π/2, π/2]` the haversine intermediate `a`
lies in `[0, 1]` (both square-root arguments are non-negative), and the
returned distance lies in `[0, π * 6371000]`. -/
theorem haversine_total_and_bounded (lat1 lon1 lat2 lon2 : ℝ)
    (h1l : -(Real.pi / 2) ≤ lat1) (h1u : lat1 ≤ Real.pi / 2)
    (h2l : -(Real.pi / 2) ≤ lat2) (h2u : lat2 ≤ Real.pi / 2) :
    0 ≤ haversine_a lat1 lon1 lat2 lon2 ∧
    haversine_a lat1 lon1 lat2 lon2 ≤ 1 ∧
    0 ≤ haversine_distance lat1 lon1 lat2 lon2 6371000 ∧
    haversine_distance lat1 lon1 lat2 lon2 6371000 ≤ Real.pi * 6371000 := by
  have ha0 := haversine_a_nonneg lat1 lon1 lat2 lon2 h1l h1u h2l h2u
  have ha1 := haversine_a_le_one lat1 lon1 lat2 lon2 h1l h1u h2l h2u
  obtain ⟨hc0, hc2⟩ := arctan2_bounds
    (Real.sqrt (haversine_a lat1 lon1 lat2 lon2))
    (Real.sqrt (1 - haversine_a lat1 lon1 lat2 lon2))
    (Real.sqrt_nonneg _) (Real.sqrt_nonneg _)
  refine ⟨ha0, ha1, ?_, ?_⟩
  · unfold haversine_distance haversine_c
    have : (0:ℝ) ≤ 6371000 := by norm_num
    exact mul_nonneg this (by linarith)
  · unfold haversine_distance haversine_c
    linarith

/-- Witness for C6 at the concrete point pair `(0,0)`, `(0,0)`. -/
theorem haversine_total_and_bounded_witness :
    0 ≤ haversine_a 0 0 0 0 ∧ haversine_a 0 0 0 0 ≤ 1 ∧
    0 ≤ haversine_distance 0 0 0 0 6371000 ∧
    haversine_distance 0 0 0 0 6371000 ≤ Real.pi * 6371000 :=
  haversine_total_and_bounded 0 0 0 0
    (by linarith [Real.pi_pos]) (by linarith [Real.pi_pos])
    (by linarith [Real.pi_pos]) (by linarith [Real.pi_pos])

/-! ### Helper lemmas about the pipeline embedding -/

lemma mem_cleanedSteps_iff (rows : List Row) (s : Step) :
    s ∈ cleanedSteps rows ↔
      s ∈ mkSteps (sortRows rows) ∧ MIN_HORIZONTAL_STEP_M ≤ s.d_horizontal_m := by
  unfold cleanedSteps
  simp [List.mem_filter]

lemma mkSteps_length (l : List Row) : (mkSteps l).length = l.length - 1 := by
  induction l with
  | nil => rfl
  | cons p t ih =>
    cases t with
    | nil => rfl
    | cons q rest =>
      simp only [mkSteps, List.length_cons] at ih ⊢
      omega

lemma le_foldl_max (x : ℝ) (l : List ℝ) : x ≤ l.foldl max x := by
  induction l generalizing x with
  | nil => exact le_refl x
  | cons y t ih => exact le_trans (le_max_left x y) (ih (max x y))

lemma seriesMax_getD_nonneg (l : List ℝ) (h : ∀ v ∈ l, 0 ≤ v) :
    0 ≤ (seriesMax l).getD 0 := by
  cases l with
  | nil => simp [seriesMax]
  | cons x xs =>
    simp only [seriesMax, Option.getD_some]
    exact le_trans (h x (List.mem_cons_self x xs)) (le_foldl_max x xs)

lemma seriesMean_getD_nonneg (l : List ℝ) (h : ∀ v ∈ l, 0 ≤ v) :
    0 ≤ (seriesMean l).getD 0 := by
  cases l with
  | nil => simp [seriesMean]
  | cons x xs =>
    simp only [seriesMean, Option.getD_some]
    exact div_nonneg (List.sum_nonneg h) (Nat.cast_nonneg _)

lemma getD_zero_nonneg (l : List ℝ) (h : ∀ v ∈ l, 0 ≤ v) (n : ℕ) :
    0 ≤ l.getD n 0 := by
  rw [List.getD_eq_getElem?_getD]
  cases hval : l[n]? with
  | none => simp
  | some v => simpa using h v (List.getElem?_mem hval)

lemma seriesMedian_getD_nonneg (l : List ℝ) (h : ∀ v ∈ l, 0 ≤ v) :
    0 ≤ (seriesMedian l).getD 0 := by
  cases l with
  | nil => simp [seriesMedian]
  | cons x xs =>
    have hs : ∀ v ∈ List.insertionSort (· ≤ ·) (x :: xs), 0 ≤ v := fun v hv =>
      h v ((List.perm_insertionSort (· ≤ ·) (x :: xs)).subset hv)
    simp only [seriesMedian]
    split_ifs
    · simpa using getD_zero_nonneg _ hs _
    · simp only [Option.getD_some]
      have h1 := getD_zero_nonneg _ hs ((x :: xs).length / 2 - 1)
      have h2 := getD_zero_nonneg _ hs ((x :: xs).length / 2)
      linarith

/-! ### Claims C4 and C8: load failure and report-write failure -/

/-- Claim C4: a missing or unreadable source file, an absent required
column, or an empty table makes `analyze_and_export_metrics` return the
failure signal (`none`) — modelled totally, so no exception escapes. -/
theorem analyze_none_on_invalid_source
    (file_path lon_col lat_col z_col id_col : String) (src : Source)
    (output_filename : Option String) (writable : Bool)
    (h : src = Source.fileNotFound ∨ src = Source.loadError ∨
      ∃ df, src = Source.table df ∧
        (df.rows = [] ∨ ¬ (lon_col ∈ df.columns ∧ lat_col ∈ df.columns ∧
          z_col ∈ df.columns ∧ id_col ∈ df.columns))) :
    (analyze_and_export_metrics file_path lon_col lat_col z_col id_col src
      output_filename writable).1 = none := by
  rcases h with h | h | ⟨df, rfl, hdf⟩
  · subst h; rfl
  · subst h; rfl
  · have hcond : df.rows.isEmpty = true ∨
        ¬ (lon_col ∈ df.columns ∧ lat_col ∈ df.columns ∧
           z_col ∈ df.columns ∧ id_col ∈ df.columns) := by
      rcases hdf with hrows | hcols
      · left; rw [hrows]; rfl
      · right; exact hcols
    simp only [analyze_and_export_metrics]
    rw [if_pos hcond]

/-- Witness for C4: a missing file yields the failure signal. -/
theorem analyze_none_on_invalid_source_witness :
    (analyze_and_export_metrics "points.xlsx" "x" "y" "ZCOORD" "ID"
      Source.fileNotFound none true).1 = none :=
  analyze_none_on_invalid_source "points.xlsx" "x" "y" "ZCOORD" "ID"
    Source.fileNotFound none true (Or.inl rfl)

/-- Claim C8: the returned metrics record does not depend on the optional
report file: absent, writable or unwritable `output_filename` settings all
yield the same first component, and the write step is modelled totally
(a failed write is recorded as a logged warning, not an exception). -/
theorem analyze_independent_of_report_write
    (file_path lon_col lat_col z_col id_col : String) (src : Source)
    (o₁ o₂ : Option String) (w₁ w₂ : Bool) :
    (analyze_and_export_metrics file_path lon_col lat_col z_col id_col src o₁ w₁).1 =
      (analyze_and_export_metrics file_path lon_col lat_col z_col id_col src o₂ w₂).1 := by
  cases src with
  | fileNotFound => rfl
  | loadError => rfl
  | table df =>
    simp only [analyze_and_export_metrics]
    split_ifs <;> cases o₁ <;> cases o₂ <;> rfl

/-! ### Claim C5: permutation invariance for distinct ids -/

lemma sortRows_perm (l : List Row) : (sortRows l).Perm l :=
  List.perm_insertionSort rowLE l

lemma sortRows_sorted (l : List Row) : List.Sorted rowLE (sortRows l) :=
  List.sorted_insertionSort rowLE l

lemma sorted_strict_of_nodup_ids (l : List Row)
    (hs : List.Sorted rowLE l) (hn : (l.map Row.ID).Nodup) :
    List.Sorted rowLT l := by
  have hne : l.Pairwise (fun a b => a.ID ≠ b.ID) := by
    rw [List.Nodup, List.pairwise_map] at hn
    exact hn
  exact (hs.and hne).imp (fun h => lt_of_le_of_ne h.1 h.2)

lemma nodup_ids_of_perm {l₁ l₂ : List Row} (hp : l₁.Perm l₂)
    (hn : (l₁.map Row.ID).Nodup) : (l₂.map Row.ID).Nodup :=
  ((hp.map Row.ID).nodup_iff).mp hn

lemma sortRows_eq_of_perm (l₁ l₂ : List Row) (hp : l₁.Perm l₂)
    (hn : (l₁.map Row.ID).Nodup) :
    sortRows l₁ = sortRows l₂ := by
  have hperm : (sortRows l₁).Perm (sortRows l₂) :=
    (sortRows_perm l₁).trans (hp.trans (sortRows_perm l₂).symm)
  have hn₁ : ((sortRows l₁).map Row.ID).Nodup :=
    nodup_ids_of_perm (sortRows_perm l₁).symm hn
  have hn₂ : ((sortRows l₂).map Row.ID).Nodup :=
    nodup_ids_of_perm (hp.trans (sortRows_perm l₂).symm) hn
  exact List.eq_of_perm_of_sorted hperm
    (sorted_strict_of_nodup_ids _ (sortRows_sorted l₁) hn₁)
    (sorted_strict_of_nodup_ids _ (sortRows_sorted l₂) hn₂)

lemma rows_isEmpty_of_perm {l₁ l₂ : List Row} (hp : l₁.Perm l₂) :
    l₁.isEmpty = l₂.isEmpty := by
  have hlen := hp.length_eq
  cases l₁ <;> cases l₂ <;> simp_all

/-- Claim C5: for tables with pairwise-distinct id values, permuting the
input rows changes neither the computed metrics nor the full result of
`analyze_and_export_metrics`, because the rows are first sorted by id. -/
theorem metrics_permutation_invariant
    (file_path lon_col lat_col z_col id_col : String) (cols : List String)
    (l₁ l₂ : List Row) (o : Option String) (w : Bool)
    (hp : l₁.Perm l₂) (hn : (l₁.map Row.ID).Nodup) :
    computeMetrics file_path l₁ = computeMetrics file_path l₂ ∧
    analyze_and_export_metrics file_path lon_col lat_col z_col id_col
        (Source.table { columns := cols, rows := l₁ }) o w =
      analyze_and_export_metrics file_path lon_col lat_col z_col id_col
        (Source.table { columns := cols, rows := l₂ }) o w := by
  have hsort : sortRows l₁ = sortRows l₂ := sortRows_eq_of_perm l₁ l₂ hp hn
  have hcompute : computeMetrics file_path l₁ = computeMetrics file_path l₂ := by
    unfold computeMetrics cleanedSteps
    rw [hsort]
  refine ⟨hcompute, ?_⟩
  simp only [analyze_and_export_metrics]
  rw [rows_isEmpty_of_perm hp, hcompute]

/-- Witness for C5: the two-point table presented in both orders. -/
theorem metrics_permutation_invariant_witness :
    computeMetrics "f"
        [{ ID := 1, x := 0, y := 0, ZCOORD := 0 }, { ID := 2, x := 0, y := 0, ZCOORD := 5 }] =
      computeMetrics "f"
        [{ ID := 2, x := 0, y := 0, ZCOORD := 5 }, { ID := 1, x := 0, y := 0, ZCOORD := 0 }] ∧
    analyze_and_export_metrics "f" "x" "y" "ZCOORD" "ID"
        (Source.table { columns := ["x", "y", "ZCOORD", "ID"],
                        rows := [{ ID := 1, x := 0, y := 0, ZCOORD := 0 },
                          { ID := 2, x := 0, y := 0, ZCOORD := 5 }] }) none true =
      analyze_and_export_metrics "f" "x" "y" "ZCOORD" "ID"
        (Source.table { columns := ["x", "y", "ZCOORD", "ID"],
                        rows := [{ ID := 2, x := 0, y := 0, ZCOORD := 5 },
                          { ID := 1, x := 0, y := 0, ZCOORD := 0 }] }) none true :=
  metrics_permutation_invariant "f" "x" "y" "ZCOORD" "ID" ["x", "y", "ZCOORD", "ID"]
    [{ ID := 1, x := 0, y := 0, ZCOORD := 0 }, { ID := 2, x := 0, y := 0, ZCOORD := 5 }]
    [{ ID := 2, x := 0, y := 0, ZCOORD := 5 }, { ID := 1, x := 0, y := 0, ZCOORD := 0 }]
    none true
    (List.Perm.swap ({ ID := 2, x := 0, y := 0, ZCOORD := 5 } : Row)
      ({ ID := 1, x := 0, y := 0, ZCOORD := 0 } : Row) [])
    (by simp)

/-! ### Claim C1: the degenerate-step filter -/

/-- Claim C1: every step of the sorted table whose horizontal distance is
below the 1 cm threshold is excluded from the cleaned step list, every step
at or above the threshold is included, no step exists for the first row
(`n` rows produce `n - 1` steps), and all aggregates — the slope statistics
and the vertical-step statistics alike — are computed from the cleaned step
list only. -/
theorem degenerate_step_filter
    (file_path : String) (rows : List Row) (s : Step)
    (hs : s ∈ mkSteps (sortRows rows)) :
    (s.d_horizontal_m < MIN_HORIZONTAL_STEP_M → s ∉ cleanedSteps rows) ∧
    (MIN_HORIZONTAL_STEP_M ≤ s.d_horizontal_m → s ∈ cleanedSteps rows) ∧
    (mkSteps (sortRows rows)).length = (sortRows rows).length - 1 ∧
    computeMetrics file_path rows = metricsFromSteps file_path (cleanedSteps rows) := by
  refine ⟨?_, ?_, mkSteps_length _, rfl⟩
  · intro hlt hmem
    exact absurd ((mem_cleanedSteps_iff rows s).mp hmem).2 (not_le.mpr hlt)
  · intro hge
    exact (mem_cleanedSteps_iff rows s).mpr ⟨hs, hge⟩

/-- First row of the two-point example table (coincident coordinates). -/
def exRow1 : Row := { ID := 1, x := 0, y := 0, ZCOORD := 0 }

/-- Second row of the two-point example table. -/
def exRow2 : Row := { ID := 2, x := 0, y := 0, ZCOORD := 5 }

/-- The single step of the two-point example table. -/
noncomputable def exStep : Step :=
  { d_horizontal_m := haversine_distance (radians exRow1.y) (radians exRow1.x)
      (radians exRow2.y) (radians exRow2.x) 6371000,
    dZ_m := exRow2.ZCOORD - exRow1.ZCOORD }

lemma exSort : sortRows [exRow1, exRow2] = [exRow1, exRow2] := rfl

lemma exMem : exStep ∈ mkSteps (sortRows [exRow1, exRow2]) := by
  rw [exSort]
  exact List.mem_cons_self _ _

/-- Witness for C1 at the two-point example table and its single step. -/
theorem degenerate_step_filter_witness :
    (exStep.d_horizontal_m < MIN_HORIZONTAL_STEP_M →
      exStep ∉ cleanedSteps [exRow1, exRow2]) ∧
    (MIN_HORIZONTAL_STEP_M ≤ exStep.d_horizontal_m →
      exStep ∈ cleanedSteps [exRow1, exRow2]) ∧
    (mkSteps (sortRows [exRow1, exRow2])).length = (sortRows [exRow1, exRow2]).length - 1 ∧
    computeMetrics "f" [exRow1, exRow2] =
      metricsFromSteps "f" (cleanedSteps [exRow1, exRow2]) :=
  degenerate_step_filter "f" [exRow1, exRow2] exStep exMem

/-! ### Claim C2: empty surviving-step set resolves to all-zero aggregates -/

/-- The metrics record whose aggregate fields are all exactly `0.0`. -/
noncomputable def zeroMetrics (file_path : String) : TerrainMetrics :=
  { File_Path := file_path
    Max_Slope_Ratio_m_m := 0
    Median_Absolute_Slope_m_m := 0
    Mean_Absolute_Slope_m_m := 0
    Max_Grade_Percent := 0
    Median_Grade_Percent := 0
    Mean_Grade_Percent := 0
    Max_Grade_Angle_Degrees := 0
    Max_Vertical_Step_m := 0
    Median_Vertical_Step_m := 0
    Mean_Vertical_Step_m := 0 }

lemma metricsFromSteps_nil (file_path : String) :
    metricsFromSteps file_path [] = zeroMetrics file_path := by
  unfold metricsFromSteps zeroMetrics
  simp [seriesMax, seriesMean, seriesMedian, degrees, Real.arctan_zero]

/-- Claim C2: when the table passed validation but no step survives the
1 cm filter (all steps degenerate, or fewer than 2 rows), the function
still returns a metrics record — not the failure signal — and every
aggregate field of that record is exactly `0`, with no NaN and no
exception (the embedding is total). -/
theorem zero_metrics_on_empty_survivors
    (file_path lon_col lat_col z_col id_col : String) (df : DataFrame)
    (o : Option String) (w : Bool)
    (hne : df.rows.isEmpty = false)
    (hcols : lon_col ∈ df.columns ∧ lat_col ∈ df.columns ∧
      z_col ∈ df.columns ∧ id_col ∈ df.columns)
    (hclean : cleanedSteps df.rows = []) :
    (analyze_and_export_metrics file_path lon_col lat_col z_col id_col
        (Source.table df) o w).1 = some (zeroMetrics file_path) := by
  have hzero : computeMetrics file_path df.rows = zeroMetrics file_path := by
    unfold computeMetrics
    rw [hclean, metricsFromSteps_nil]
  have hcond : ¬ (df.rows.isEmpty = true ∨
      ¬ (lon_col ∈ df.columns ∧ lat_col ∈ df.columns ∧
         z_col ∈ df.columns ∧ id_col ∈ df.columns)) := by
    intro hc
    rcases hc with hc | hc
    · rw [hne] at hc; cases hc
    · exact hc hcols
  simp only [analyze_and_export_metrics]
  rw [if_neg hcond]
  cases o with
  | none => simp [hzero]
  | some fn => cases w <;> simp [hzero]

/-- Column list of the example table, matching the default bindings. -/
def exColumns : List String := ["x", "y", "ZCOORD", "ID"]

/-- A one-row table: it passes validation but yields no step. -/
def exDF : DataFrame := { columns := exColumns, rows := [exRow1] }

/-- Witness for C2: the one-row table returns the all-zero record. -/
theorem zero_metrics_on_empty_survivors_witness :
    (analyze_and_export_metrics "f" "x" "y" "ZCOORD" "ID"
        (Source.table exDF) none true).1 = some (zeroMetrics "f") :=
  zero_metrics_on_empty_survivors "f" "x" "y" "ZCOORD" "ID" exDF none true rfl
    (by simp [exDF, exColumns]) rfl

/-! ### Claim C10: every numeric field of a produced record is non-negative -/

lemma analyze_exDF_eval :
    (analyze_and_export_metrics "f" "x" "y" "ZCOORD" "ID"
        (Source.table exDF) none true).1 = some (zeroMetrics "f") := by
  have hcond : ¬ (exDF.rows.isEmpty = true ∨
      ¬ ("x" ∈ exDF.columns ∧ "y" ∈ exDF.columns ∧
         "ZCOORD" ∈ exDF.columns ∧ "ID" ∈ exDF.columns)) := by
    simp [exDF, exColumns]
  simp only [analyze_and_export_metrics]
  rw [if_neg hcond]
  show some (computeMetrics "f" exDF.rows) = some (zeroMetrics "f")
  have hclean : cleanedSteps exDF.rows = [] := rfl
  unfold computeMetrics
  rw [hclean, metricsFromSteps_nil]

/-- Claim C10: whenever `analyze_and_export_metrics` returns a metrics
record rather than the failure signal, every numeric field of the record
(the three slope aggregates, the three grade percents, the max grade angle
and the three vertical-step aggregates) is non-negative, because slopes and
vertical steps are taken in absolute value before aggregation. -/
theorem metrics_fields_nonneg
    (file_path lon_col lat_col z_col id_col : String) (src : Source)
    (o : Option String) (w : Bool) (m : TerrainMetrics)
    (h : (analyze_and_export_metrics file_path lon_col lat_col z_col id_col
        src o w).1 = some m) :
    0 ≤ m.Max_Slope_Ratio_m_m ∧ 0 ≤ m.Median_Absolute_Slope_m_m ∧
    0 ≤ m.Mean_Absolute_Slope_m_m ∧ 0 ≤ m.Max_Grade_Percent ∧
    0 ≤ m.Median_Grade_Percent ∧ 0 ≤ m.Mean_Grade_Percent ∧
    0 ≤ m.Max_Grade_Angle_Degrees ∧ 0 ≤ m.Max_Vertical_Step_m ∧
    0 ≤ m.Median_Vertical_Step_m ∧ 0 ≤ m.Mean_Vertical_Step_m := by
  obtain ⟨df, hm⟩ : ∃ df : DataFrame, m = computeMetrics file_path df.rows := by
    cases src with
    | fileNotFound => exact absurd h (by simp [analyze_and_export_metrics])
    | loadError => exact absurd h (by simp [analyze_and_export_metrics])
    | table df =>
      refine ⟨df, ?_⟩
      simp only [analyze_and_export_metrics] at h
      by_cases hc : df.rows.isEmpty = true ∨
          ¬ (lon_col ∈ df.columns ∧ lat_col ∈ df.columns ∧
             z_col ∈ df.columns ∧ id_col ∈ df.columns)
      · rw [if_pos hc] at h
        cases h
      · rw [if_neg hc] at h
        cases o with
        | none =>
          simp only at h
          exact (Option.some.inj h).symm
        | some fn =>
          cases w <;> (simp only [if_true, if_false] at h; exact (Option.some.inj h).symm)
  subst hm
  unfold computeMetrics metricsFromSteps
  have habs1 : ∀ v ∈ (cleanedSteps df.rows).map
      (fun s => |s.dZ_m / s.d_horizontal_m|), 0 ≤ v := by
    intro v hv
    rcases List.mem_map.mp hv with ⟨t, _, rfl⟩
    exact abs_nonneg _
  have habs2 : ∀ v ∈ (cleanedSteps df.rows).map (fun s => |s.dZ_m|), 0 ≤ v := by
    intro v hv
    rcases List.mem_map.mp hv with ⟨t, _, rfl⟩
    exact abs_nonneg _
  have h100 : (0:ℝ) ≤ 100 := by norm_num
  have hdeg : (0:ℝ) ≤ 180 / Real.pi := div_nonneg (by norm_num) Real.pi_pos.le
  refine ⟨seriesMax_getD_nonneg _ habs1, seriesMedian_getD_nonneg _ habs1,
    seriesMean_getD_nonneg _ habs1,
    mul_nonneg (seriesMax_getD_nonneg _ habs1) h100,
    mul_nonneg (seriesMedian_getD_nonneg _ habs1) h100,
    mul_nonneg (seriesMean_getD_nonneg _ habs1) h100, ?_,
    seriesMax_getD_nonneg _ habs2, seriesMedian_getD_nonneg _ habs2,
    seriesMean_getD_nonneg _ habs2⟩
  unfold degrees
  exact mul_nonneg
    (arctan_nonneg_of_nonneg (seriesMax_getD_nonneg _ habs1)) hdeg

/-- Witness for C10: the all-zero record returned on the one-row table. -/
theorem metrics_fields_nonneg_witness :
    0 ≤ (zeroMetrics "f").Max_Slope_Ratio_m_m ∧
    0 ≤ (zeroMetrics "f").Median_Absolute_Slope_m_m ∧
    0 ≤ (zeroMetrics "f").Mean_Absolute_Slope_m_m ∧
    0 ≤ (zeroMetrics "f").Max_Grade_Percent ∧
    0 ≤ (zeroMetrics "f").Median_Grade_Percent ∧
    0 ≤ (zeroMetrics "f").Mean_Grade_Percent ∧
    0 ≤ (zeroMetrics "f").Max_Grade_Angle_Degrees ∧
    0 ≤ (zeroMetrics "f").Max_Vertical_Step_m ∧
    0 ≤ (zeroMetrics "f").Median_Vertical_Step_m ∧
    0 ≤ (zeroMetrics "f").Mean_Vertical_Step_m :=
  metrics_fields_nonneg "f" "x" "y" "ZCOORD" "ID" (Source.table exDF) none true
    (zeroMetrics "f") analyze_exDF_eval
